import Mathlib

/-!
# Verification of the simkube trace-capture core

A shallow embedding of the pod-lifecycle watcher, the owner-chain resolver,
the trace store's export path, and the snapshot command's orchestration
(`src/cli/snapshot.rs`), together with proofs of the behavioural properties
stated in the specification.

The watcher, resolver and store implementations live outside the vendored
sources (only their tests in `src/lib/rust/watch/tests/pod_watcher_test.rs`
and their caller `src/cli/snapshot.rs` are present), so those components are
modelled from the specification; the vendored tests are source code and
take precedence wherever they contradict the specification's words — in
particular, the index retains a pod recorded as `Finished` after the
terminal `Applied` transition (`pod_watcher_test.rs:138`, `:311`), and the
delete path consults the deleted object's own container data
(`pod_watcher_test.rs:184-208`).  The snapshot command itself is embedded
directly from `src/cli/snapshot.rs`.
-/

namespace Simkube

/-- An owner reference: a record on an object pointing to its controlling
object, carrying API version, kind, name and UID (spec glossary). -/
structure OwnerReference where
  apiVersion : String
  kind : String
  name : String
  uid : String
deriving DecidableEq, Repr

/-- `PodLifecycleData`: what is known about a pod's run interval
(spec section 3): `empty` when nothing has been observed, `running start_ts`
when a container has started and none finished, `finished start_ts end_ts`
once the lifecycle is closed. -/
inductive PodLifecycleData where
  | empty : PodLifecycleData
  | running (startTs : Int) : PodLifecycleData
  | finished (startTs endTs : Int) : PodLifecycleData
deriving DecidableEq, Repr

/-- The status of one container of a pod, as far as the watcher reads it:
never started, started at a timestamp, or started and terminated. -/
inductive ContainerStatus where
  | waiting : ContainerStatus
  | running (startTs : Int) : ContainerStatus
  | terminated (startTs endTs : Int) : ContainerStatus
deriving DecidableEq, Repr

/-- A Kubernetes pod as far as the watcher inspects it: identity, owner
references, and container statuses.  `containerStatuses = none` models a pod
object with missing (or malformed, hence unreadable) container-status data,
as in metadata-only delete events. -/
structure Pod where
  ns : String
  name : String
  ownerRefs : List OwnerReference
  containerStatuses : Option (List ContainerStatus)
deriving DecidableEq, Repr

/-- A generic API object as seen by the owner-chain resolver: identity plus
owner references (the resolver reads nothing else). -/
structure ApiObj where
  ns : String
  name : String
  ownerRefs : List OwnerReference
deriving DecidableEq, Repr

/-- Forget a pod's container data, keeping what the resolver uses. -/
def Pod.toObj (p : Pod) : ApiObj :=
  { ns := p.ns, name := p.name, ownerRefs := p.ownerRefs }

/-- The namespaced name `namespace/name` of an API object (spec glossary). -/
def ApiObj.namespacedName (o : ApiObj) : String :=
  o.ns ++ "/" ++ o.name

/-- The namespaced name `namespace/name` of a pod. -/
def Pod.namespacedName (p : Pod) : String :=
  p.ns ++ "/" ++ p.name

/-- Association-list lookup (first binding wins), used for the watcher
index, the owner-chain cache and the fake API. -/
def alistLookup {β : Type} : List (String × β) → String → Option β
  | [], _ => none
  | (k, v) :: rest, key => if k = key then some v else alistLookup rest key

/-- Remove every binding of a key from an association list. -/
def alistErase {β : Type} (l : List (String × β)) (key : String) :
    List (String × β) :=
  l.filter (fun e => e.1 ≠ key)

/-- Insert (or replace) a binding in an association list. -/
def alistInsert {β : Type} (l : List (String × β)) (key : String) (v : β) :
    List (String × β) :=
  (key, v) :: alistErase l key

/-- The owner-chain cache: namespaced name ↦ resolved ancestor chain,
nearest ancestor first (spec section 3).  The size bound / LRU eviction of
the bounded cache is abstracted away: no claim touches eviction. -/
abbrev OwnerCache : Type := List (String × List OwnerReference)

/-- The external API-access collaborator, modelled as a lookup table from
`(api_version, kind, namespace, name)` to the object it returns (spec
section 6); a missing key models a not-found / API error. -/
abbrev ApiMap : Type := List ((String × String × String × String) × ApiObj)

/-- Fetch an owner object through the API collaborator, by the owner
reference's API version and kind, the child's namespace, and the owner
reference's name (spec section 4.1). -/
def apiFetch (api : ApiMap) (apiVersion kind ns name : String) :
    Option ApiObj :=
  match api with
  | [] => none
  | (k, o) :: rest =>
      if k = (apiVersion, kind, ns, name) then some o
      else apiFetch rest apiVersion kind ns name

/-- Modelled from the spec: the owner-chain resolver
`compute_owner_chain` (spec section 4.1), whose implementation is not among
the vendored sources (only its tests are).  On a cache hit it returns the
cached chain verbatim with no API access; with no owner references the
chain is empty (cached before returning); otherwise it follows the FIRST
owner reference only, fetches that owner, recursively resolves the owner's
chain with the same cache, prepends the reference, and caches the result
for the object's namespaced name before returning.  A fetch failure
propagates as `none`.  Recursion is fuel-bounded (spec section 9 asks for
bounded recursion); the result carries the updated cache and the number of
API fetches performed, so that cache coherence ("a cache hit never triggers
any API call") is expressible. -/
def computeOwnerChain (api : ApiMap) :
    Nat → OwnerCache → ApiObj → Option (List OwnerReference × OwnerCache × Nat)
  | fuel, cache, obj =>
    match alistLookup cache obj.namespacedName with
    | some chain => some (chain, cache, 0)
    | none =>
        match obj.ownerRefs with
        | [] => some ([], alistInsert cache obj.namespacedName [], 0)
        | r :: _ =>
            match fuel with
            | 0 => none
            | fuel' + 1 =>
                match apiFetch api r.apiVersion r.kind obj.ns r.name with
                | none => none
                | some owner =>
                    match computeOwnerChain api fuel' cache owner with
                    | none => none
                    | some (c, cache', k) =>
                        some (r :: c,
                          alistInsert cache' obj.namespacedName (r :: c),
                          k + 1)

/-- Modelled from the spec: `container_lifecycle` of the pod watcher (spec
section 4.2 rule 1), whose implementation is not among the vendored
sources.  Missing container-status data (`none`) yields `empty`; otherwise
`empty` if no container has started, `running` of the earliest start if
none has finished, and `finished` of the earliest start and latest finish
if some container has terminated. -/
def containerLifecycle (p : Pod) : PodLifecycleData :=
  match p.containerStatuses with
  | none => .empty
  | some statuses =>
      let starts := statuses.filterMap (fun s =>
        match s with
        | .waiting => none
        | .running ts => some ts
        | .terminated ts _ => some ts)
      let ends := statuses.filterMap (fun s =>
        match s with
        | .terminated _ ts => some ts
        | _ => none)
      match starts, ends with
      | [], _ => .empty
      | s :: ss, [] => .running ((s :: ss).foldl min s)
      | s :: ss, e :: es => .finished ((s :: ss).foldl min s) ((e :: es).foldl max e)

/-- One record written to the trace store's pod-lifecycle mapping by
`record_pod_lifecycle(name, owner_chain, lifecycle)` (spec section 4.4). -/
abbrev PodRecord : Type := String × List OwnerReference × PodLifecycleData

/-- The pod watcher's state: the index of not-yet-finalized pods
(namespaced name ↦ `PodLifecycleData`), the private owner-chain cache, and
the append-only sequence of `record_pod_lifecycle` calls issued to the
shared trace store (spec sections 3 and 4.2). -/
structure PodWatcher where
  ownedPods : List (String × PodLifecycleData)
  ownersCache : OwnerCache
  storeRecords : List PodRecord
deriving DecidableEq, Repr

/-- The three kinds of events delivered by the pod watch stream
(spec section 4.2). -/
inductive PodStreamEvent where
  | applied (pod : Pod) : PodStreamEvent
  | deleted (pod : Pod) : PodStreamEvent
  | restarted (pods : List Pod) : PodStreamEvent

/-- Modelled from the spec: the tracking order on lifecycle observations
used by the `Applied` path of `handle_pod_event` (spec section 4.2 rule 1),
whose implementation is not among the vendored sources; where the spec's
words and the vendored tests differ, the tests fix the behaviour.  A new
observation is tracked when it strictly advances what the index holds:
any non-`empty` observation advances an absent or `empty` entry
(`test_handle_pod_event_applied` shows the first `running` observation is
recorded); `finished start end` advances `running existing_start` exactly
when `start = existing_start` (spec 4.2, `..._wrong_start_ts`); nothing
advances an equal `running` entry
(`test_handle_pod_event_applied_already_stored`) or a `finished` entry
(`pod_watcher_test.rs:138`, `:311`: once `finished`, replays are no-ops). -/
def shouldTrack (observed : PodLifecycleData)
    (current : Option PodLifecycleData) : Bool :=
  match observed, current with
  | .empty, _ => false
  | .running _, none => true
  | .running _, some .empty => true
  | .running _, some _ => false
  | .finished _ _, none => true
  | .finished _ _, some .empty => true
  | .finished s _, some (.running existingStart) => s = existingStart
  | .finished _ _, some (.finished _ _) => false

/-- Modelled from the spec: rule (1) of `handle_pod_event` for
`Applied(pod)` (spec section 4.2), as fixed by the vendored tests where
they contradict the spec's words.  When the observation advances the
tracked entry (`shouldTrack`), the owner chain is resolved, the
observation is recorded to the store and the index entry is UPDATED to the
observation — the program retains a pod recorded as `finished` in its
index (`pod_watcher_test.rs:138`, `:311`); the spec's "remove the pod from
the index" does not happen on this path (removal happens only on
delete/resync).  Every other observation leaves the state untouched.  An
owner-chain resolution failure propagates as `none`, leaving index and
store unchanged (spec section 7). -/
def handlePodApplied (api : ApiMap) (fuel : Nat) (st : PodWatcher)
    (pod : Pod) : Option PodWatcher :=
  let n := pod.namespacedName
  let observed := containerLifecycle pod
  if shouldTrack observed (alistLookup st.ownedPods n) then
    match computeOwnerChain api fuel st.ownersCache pod.toObj with
    | none => none
    | some (chain, cache', _) =>
        some { ownedPods := alistInsert st.ownedPods n observed,
               ownersCache := cache',
               storeRecords := st.storeRecords ++ [(n, chain, observed)] }
  else some st

/-- Modelled from the spec: the finalization value of the delete path, as
fixed by the vendored test
`test_handle_pod_event_deleted_finished[old_still_running]`
(`pod_watcher_test.rs:184-208`): when the deleted object itself carries a
`finished` observation, that observed interval is recorded verbatim (end
from container data, with the clock at 10000 the test requires end 5678);
only otherwise (`running`, `empty`, or metadata-only) is the tracked start
closed at the injected clock's current time. -/
def finalizeObserved (observed : PodLifecycleData) (startTs clock : Int) :
    PodLifecycleData :=
  match observed with
  | .finished a b => .finished a b
  | _ => .finished startTs clock

/-- Modelled from the spec: rule (2) of `handle_pod_event` for
`Deleted(pod)` (spec section 4.2), as fixed by the vendored tests.  No
index entry: nothing happens.  A `finished` (or `empty`) entry is only
removed — already recorded, no store write
(`test_handle_pod_event_deleted_finished[old_finished]`).  A
`running start` entry is removed and finalized via `finalizeObserved`:
the deleted object's own container data is consulted, so — contrary to
the spec's "regardless" — a delete carrying a `finished` observation
records that interval rather than the clock. -/
def handlePodDeleted (api : ApiMap) (fuel : Nat) (clock : Int)
    (st : PodWatcher) (pod : Pod) : Option PodWatcher :=
  let n := pod.namespacedName
  match alistLookup st.ownedPods n with
  | none => some st
  | some (.finished _ _) =>
      some { st with ownedPods := alistErase st.ownedPods n }
  | some .empty =>
      some { st with ownedPods := alistErase st.ownedPods n }
  | some (.running startTs) =>
      match computeOwnerChain api fuel st.ownersCache pod.toObj with
      | none => none
      | some (chain, cache', _) =>
          some { ownedPods := alistErase st.ownedPods n,
                 ownersCache := cache',
                 storeRecords := st.storeRecords ++
                   [(n, chain,
                     finalizeObserved (containerLifecycle pod) startTs
                       clock)] }

/-- Modelled from the spec: one leftover of rule (3) for `Restarted(list)`
(spec section 4.2): an index entry whose name was not in the resync list.
A `running start` leftover is finalized as in the delete path with no pod
object — `end = clock`, owner chain taken from the watcher's cache (a
missing cache entry is a failure: there is no object left to compute it
from) — and recorded; `finished`/`empty` leftovers are dropped silently
(already recorded / nothing to record).  The leftover entries themselves
were already removed from the index when the resync began. -/
def finalizeLeftover (clock : Int) (st : PodWatcher)
    (e : String × PodLifecycleData) : Option PodWatcher :=
  match e.2 with
  | .running s =>
      match alistLookup st.ownersCache e.1 with
      | none => none
      | some chain =>
          some { st with storeRecords := st.storeRecords ++
            [(e.1, chain, PodLifecycleData.finished s clock)] }
  | _ => some st

/-- Modelled from the spec: rule (3) of `handle_pod_event` for
`Restarted(list)` (spec section 4.2): index entries named in the list are
kept, entries not named are set aside as leftovers; every pod of the list
is then treated as an `Applied` event, in order, under rule (1); and
afterwards each leftover is finalized in index order. -/
def handleRestarted (api : ApiMap) (fuel : Nat) (clock : Int)
    (st : PodWatcher) (pods : List Pod) : Option PodWatcher :=
  let names := pods.map Pod.namespacedName
  match pods.foldlM (fun acc p => handlePodApplied api fuel acc p)
      (PodWatcher.mk (st.ownedPods.filter (fun e => names.contains e.1))
        st.ownersCache st.storeRecords) with
  | none => none
  | some st1 =>
      (st.ownedPods.filter (fun e => !(names.contains e.1))).foldlM
        (fun acc e => finalizeLeftover clock acc e) st1

/-- Modelled from the spec: `handle_pod_event` of the pod lifecycle watcher
(spec section 4.2), whose implementation is not among the vendored sources
(only its tests are).  `clock` is the injected clock's current time and
`api`/`fuel` parameterize owner-chain resolution. -/
def handlePodEvent (api : ApiMap) (fuel : Nat) (clock : Int)
    (st : PodWatcher) (evt : PodStreamEvent) : Option PodWatcher :=
  match evt with
  | .applied pod => handlePodApplied api fuel st pod
  | .deleted pod => handlePodDeleted api fuel clock st pod
  | .restarted pods => handleRestarted api fuel clock st pods

/-- One tracked-object apply/delete event in the trace store's append-only
log: kind, namespaced identity, labels, serialized snapshot and timestamp
(spec section 3). -/
structure ObjEvent where
  kind : String
  ns : String
  name : String
  labels : List (String × String)
  snapshot : String
  ts : Int
deriving DecidableEq, Repr

/-- One finalized pod interval held by the trace store: identity, labels,
owner chain and the closed `[startTs, endTs]` run interval (spec
section 3). -/
structure PodIntervalEntry where
  ns : String
  name : String
  labels : List (String × String)
  ownerChain : List OwnerReference
  startTs : Int
  endTs : Int
deriving DecidableEq, Repr

/-- The trace store's contents: the object-event log and the finalized pod
intervals (spec section 3). -/
structure TraceStore where
  events : List ObjEvent
  podIntervals : List PodIntervalEntry
deriving DecidableEq, Repr

/-- Export filters (spec section 3): excluded namespaces, excluded label
selectors, and whether DaemonSet-owned pods are excluded. -/
structure ExportFilters where
  excludedNamespaces : List String
  excludedLabels : List (String × String)
  excludeDaemonsets : Bool
deriving DecidableEq, Repr

/-- `ExportFilters::new(excluded_namespaces, excluded_labels,
exclude_daemonsets)`, in the positional order of the call at
`src/cli/snapshot.rs` line 49 (the field order of spec section 3). -/
def ExportFilters.new (excludedNamespaces : List String)
    (excludedLabels : List (String × String)) (excludeDaemonsets : Bool) :
    ExportFilters :=
  { excludedNamespaces := excludedNamespaces,
    excludedLabels := excludedLabels,
    excludeDaemonsets := excludeDaemonsets }

/-- Whether an entry's labels match one of the excluded label selectors. -/
def labelsMatch (excluded labels : List (String × String)) : Bool :=
  excluded.any (fun l => labels.contains l)

/-- Whether an owner chain contains a DaemonSet. -/
def chainHasDaemonSet (chain : List OwnerReference) : Bool :=
  chain.any (fun r => r.kind = "DaemonSet")

/-- Whether an object event survives the export window and filters (spec
section 4.5): its timestamp lies in `[t0, t1]`, its namespace is not
excluded and its labels match no exclusion selector. -/
def includeEvent (f : ExportFilters) (t0 t1 : Int) (e : ObjEvent) : Bool :=
  decide (t0 ≤ e.ts) && decide (e.ts ≤ t1) &&
    !(f.excludedNamespaces.contains e.ns) &&
    !(labelsMatch f.excludedLabels e.labels)

/-- Whether a pod interval survives the export window and filters (spec
section 4.5): its interval overlaps `[t0, t1]`, its namespace is not
excluded, its labels match no exclusion selector, and — when DaemonSet
exclusion is on — its owner chain contains no DaemonSet. -/
def includePod (f : ExportFilters) (t0 t1 : Int) (p : PodIntervalEntry) :
    Bool :=
  decide (p.startTs ≤ t1) && decide (t0 ≤ p.endTs) &&
    !(f.excludedNamespaces.contains p.ns) &&
    !(labelsMatch f.excludedLabels p.labels) &&
    !(f.excludeDaemonsets && chainHasDaemonSet p.ownerChain)

/-- The version header of the self-contained binary trace blob (spec
sections 4.5 and 6: the format is versioned). -/
def traceFormatVersion : Nat := 1

/-- The serialized export output, abstracted to its informational content:
the version header and the ordered, filtered records.  Two blobs are
byte-identical exactly when they are equal as values. -/
structure ExportBlob where
  version : Nat
  objEvents : List ObjEvent
  podIntervals : List PodIntervalEntry
deriving DecidableEq, Repr

/-- Modelled from the spec: the trace store's
`export(start_ts, end_ts, filters)` (spec section 4.5), whose
implementation is not among the vendored sources (only its caller
`src/cli/snapshot.rs` is).  It selects the object events and pod intervals
that overlap the window and survive the filters and serializes them; the
second component of the result is the store as left behind by the call,
which the spec requires to be the unchanged input store. -/
def exportTrace (st : TraceStore) (t0 t1 : Int) (f : ExportFilters) :
    ExportBlob × TraceStore :=
  ({ version := traceFormatVersion,
     objEvents := st.events.filter (includeEvent f t0 t1),
     podIntervals := st.podIntervals.filter (includePod f t0 t1) },
   st)

/-- Embedded from `src/cli/snapshot.rs` line 49: the snapshot command
builds its filters as
`ExportFilters::new(args.excluded_namespaces.clone(), vec![], true)` — the
command-line excluded namespaces, an empty excluded-labels list, and
DaemonSet exclusion hard-wired to `true`. -/
def snapshotFilters (excludedNamespaces : List String) : ExportFilters :=
  ExportFilters.new excludedNamespaces [] true

/-- Embedded from `src/cli/snapshot.rs` lines 50-51:
`let start_ts = Utc::now().timestamp(); let end_ts = start_ts + 1;` —
`now` is the wall-clock timestamp read at export time, after both watcher
tasks have been aborted and awaited. -/
def snapshotWindow (now : Int) : Int × Int :=
  (now, now + 1)

/-- Embedded from `src/cli/snapshot.rs` lines 49-52: the snapshot command's
export call `store.lock().unwrap().export(start_ts, end_ts, &filters)`,
with the filters of line 49 and the window of lines 50-51. -/
def snapshotExport (store : TraceStore) (now : Int)
    (excludedNamespaces : List String) : ExportBlob :=
  (exportTrace store (snapshotWindow now).1 (snapshotWindow now).2
    (snapshotFilters excludedNamespaces)).1

/-! ## Helper lemmas on association lists -/

theorem alistLookup_erase {β : Type} (l : List (String × β)) (key : String) :
    alistLookup (alistErase l key) key = none := by
  induction l with
  | nil => rfl
  | cons e rest ih =>
      by_cases h : e.1 = key
      · simpa [alistErase, List.filter_cons, h] using ih
      · simpa [alistErase, List.filter_cons, h, alistLookup] using ih

theorem alistLookup_insert {β : Type} (l : List (String × β))
    (key : String) (v : β) :
    alistLookup (alistInsert l key v) key = some v := by
  simp [alistInsert, alistLookup]

theorem alistLookup_filter_keep {β : Type} (l : List (String × β))
    (names : List String) (n : String) (h : n ∈ names) :
    alistLookup (l.filter (fun e => names.contains e.1)) n =
      alistLookup l n := by
  induction l with
  | nil => rfl
  | cons e rest ih =>
      obtain ⟨k, v⟩ := e
      by_cases hn : k = n
      · simp [List.filter_cons, alistLookup, hn, h]
      · by_cases hk : k ∈ names
        · simpa [List.filter_cons, alistLookup, hn, hk] using ih
        · simpa [List.filter_cons, alistLookup, hn, hk] using ih

theorem alistLookup_filter_drop {β : Type} (l : List (String × β))
    (names : List String) (n : String) (h : n ∉ names) :
    alistLookup (l.filter (fun e => names.contains e.1)) n = none := by
  induction l with
  | nil => rfl
  | cons e rest ih =>
      obtain ⟨k, v⟩ := e
      by_cases hk : k ∈ names
      · have hn : k ≠ n := fun hEq => h (hEq ▸ hk)
        simpa [List.filter_cons, alistLookup, hk, hn] using ih
      · simpa [List.filter_cons, hk] using ih

/-! ## Concrete fixtures (mirroring the scenarios of
`src/lib/rust/watch/tests/pod_watcher_test.rs`) -/

/-- The ReplicaSet owner reference of the resolver tests. -/
def rsRef : OwnerReference :=
  { apiVersion := "apps/v1", kind := "ReplicaSet", name := "test-rs",
    uid := "asdfasdf" }

/-- The Deployment owner reference of the resolver tests. -/
def deplRef : OwnerReference :=
  { apiVersion := "apps/v1", kind := "Deployment", name := "test-depl",
    uid := "yuioyoiuy" }

/-- The test pod, as an API object owned by the ReplicaSet. -/
def demoPodObj : ApiObj :=
  { ns := "test", name := "test-pod", ownerRefs := [rsRef] }

/-- The ReplicaSet object served by the fake API server, owned by the
Deployment. -/
def demoRsObj : ApiObj :=
  { ns := "test", name := "test-rs", ownerRefs := [deplRef] }

/-- The Deployment object served by the fake API server, with no owner. -/
def demoDeplObj : ApiObj :=
  { ns := "test", name := "test-depl", ownerRefs := [] }

/-- The fake API server contents of `test_compute_owner_chain`. -/
def demoApi : ApiMap :=
  [(("apps/v1", "ReplicaSet", "test", "test-rs"), demoRsObj),
   (("apps/v1", "Deployment", "test", "test-depl"), demoDeplObj)]

/-! ## C5: cache hits are returned verbatim with no API access -/

/-- C5: for every object whose namespaced name has an entry in the
owner-chain cache, `compute_owner_chain` returns exactly the cached chain,
leaves the cache unchanged, and performs no API fetch (fetch count 0),
for any fuel and any API contents. -/
theorem computeOwnerChain_cache_hit (api : ApiMap) (fuel : Nat)
    (cache : OwnerCache) (obj : ApiObj) (chain : List OwnerReference)
    (h : alistLookup cache obj.namespacedName = some chain) :
    computeOwnerChain api fuel cache obj = some (chain, cache, 0) := by
  unfold computeOwnerChain
  rw [h]

/-- Witness for C5: the cached pod→ReplicaSet→Deployment chain of
`test_compute_owner_chain_cached` is returned verbatim, with zero API
fetches, even though the fake API is empty. -/
theorem computeOwnerChain_cache_hit_witness :
    computeOwnerChain [] 3
      [("test/test-pod", [rsRef, deplRef])] demoPodObj =
      some ([rsRef, deplRef], [("test/test-pod", [rsRef, deplRef])], 0) :=
  computeOwnerChain_cache_hit [] 3
    [("test/test-pod", [rsRef, deplRef])] demoPodObj [rsRef, deplRef]
    (by decide)

/-! ## C6: owner chains compose across ancestor levels -/

/-- C6: for every object with no cache entry and at least one owner
reference, the resolved chain is the first owner reference prepended to
the recursively resolved chain of the fetched owner (and the composed
chain is cached for the object before returning). -/
theorem computeOwnerChain_prepend (api : ApiMap) (fuel : Nat)
    (cache : OwnerCache) (obj owner : ApiObj) (r : OwnerReference)
    (rest c : List OwnerReference) (cache' : OwnerCache) (k : Nat)
    (hmiss : alistLookup cache obj.namespacedName = none)
    (hrefs : obj.ownerRefs = r :: rest)
    (hfetch : apiFetch api r.apiVersion r.kind obj.ns r.name = some owner)
    (hrec : computeOwnerChain api fuel cache owner = some (c, cache', k)) :
    computeOwnerChain api (fuel + 1) cache obj =
      some (r :: c, alistInsert cache' obj.namespacedName (r :: c), k + 1) := by
  conv_lhs => rw [computeOwnerChain]
  rw [hmiss, hrefs]
  dsimp only
  rw [hfetch]
  dsimp only
  rw [hrec]

/-- Witness for C6: the pod→ReplicaSet→Deployment scenario of
`test_compute_owner_chain` — empty cache, fake API serving the ReplicaSet
and the Deployment — resolves the pod's chain to
`[replicaSetOwnerRef, deploymentOwnerRef]`. -/
theorem computeOwnerChain_prepend_witness :
    computeOwnerChain demoApi 2 [] demoPodObj =
      some ([rsRef, deplRef],
        alistInsert
          [("test/test-rs", [deplRef]), ("test/test-depl", [])]
          (ApiObj.namespacedName demoPodObj) [rsRef, deplRef],
        2) :=
  computeOwnerChain_prepend demoApi 1 [] demoPodObj demoRsObj rsRef []
    [deplRef] [("test/test-rs", [deplRef]), ("test/test-depl", [])] 1
    (by decide) (by decide) (by decide) (by decide)

/-! ## Pod fixtures for the watcher scenarios -/

/-- The test pod with one container that ran from 1234 to 5678
(`add_finished_container(&mut test_pod, START_TS, END_TS)`). -/
def testPodFinished : Pod :=
  { ns := "test", name := "test-pod", ownerRefs := [],
    containerStatuses := some [.terminated 1234 5678] }

/-- The test pod with one container running since 1234
(`add_running_container(&mut test_pod, START_TS)`). -/
def testPodRunning : Pod :=
  { ns := "test", name := "test-pod", ownerRefs := [],
    containerStatuses := some [.running 1234] }

/-- The test pod with metadata only — no container-status data. -/
def testPodMeta : Pod :=
  { ns := "test", name := "test-pod", ownerRefs := [],
    containerStatuses := none }

/-! ## C4: a mismatched start timestamp is a no-op -/

/-- C4: for every pod whose index entry is `running existing_start`, an
`Applied` event observed as `finished start_ts end_ts` with
`start_ts ≠ existing_start` returns the watcher state unchanged: the index
entry is untouched and nothing is written to the store. -/
theorem applied_finished_wrong_start (api : ApiMap) (fuel : Nat)
    (clock : Int) (st : PodWatcher) (pod : Pod) (s e es : Int)
    (hidx : alistLookup st.ownedPods pod.namespacedName =
      some (.running es))
    (hobs : containerLifecycle pod = .finished s e)
    (hne : s ≠ es) :
    handlePodEvent api fuel clock st (.applied pod) = some st := by
  simp only [handlePodEvent, handlePodApplied, hidx, hobs]
  simp [shouldTrack, hne]

/-- Witness for C4: the scenario of
`test_handle_pod_event_applied_running_to_finished_wrong_start_ts` — index
entry `running 5555`, observation `finished 1234 5678` — leaves the state
unchanged. -/
theorem applied_finished_wrong_start_witness :
    handlePodEvent [] 0 1234
      (PodWatcher.mk [("test/test-pod", .running 5555)] [] [])
      (.applied testPodFinished) =
      some (PodWatcher.mk [("test/test-pod", .running 5555)] [] []) :=
  applied_finished_wrong_start [] 0 1234
    (PodWatcher.mk [("test/test-pod", .running 5555)] [] [])
    testPodFinished 1234 5678 5555 (by decide) (by decide) (by decide)

/-! ## C8: missing container data is a valid `empty` observation -/

/-- C8: a pod with missing (or malformed, hence unreadable)
container-status data is observed as `empty`; handling its `Applied` event
always succeeds, and when the pod has no index entry the watcher state —
index and store alike — is returned unchanged. -/
theorem applied_missing_container_data (pod : Pod)
    (hmiss : pod.containerStatuses = none) :
    containerLifecycle pod = .empty ∧
    (∀ (api : ApiMap) (fuel : Nat) (clock : Int) (st : PodWatcher),
      (handlePodEvent api fuel clock st (.applied pod)).isSome = true) ∧
    (∀ (api : ApiMap) (fuel : Nat) (clock : Int) (st : PodWatcher),
      alistLookup st.ownedPods pod.namespacedName = none →
      handlePodEvent api fuel clock st (.applied pod) = some st) := by
  have hobs : containerLifecycle pod = .empty := by
    rw [containerLifecycle, hmiss]
  refine ⟨hobs, ?_, ?_⟩
  · intro api fuel clock st
    simp [handlePodEvent, handlePodApplied, hobs, shouldTrack]
  · intro api fuel clock st hidx
    simp [handlePodEvent, handlePodApplied, hobs, shouldTrack]

/-- Witness for C8: the scenario of `test_handle_pod_event_applied_empty` —
a bare metadata pod applied to a watcher with an empty index — succeeds
and changes nothing. -/
theorem applied_missing_container_data_witness :
    containerLifecycle testPodMeta = .empty ∧
    handlePodEvent [] 0 1234 (PodWatcher.mk [] [] [])
      (.applied testPodMeta) = some (PodWatcher.mk [] [] []) :=
  ⟨(applied_missing_container_data testPodMeta (by rfl)).1,
   (applied_missing_container_data testPodMeta (by rfl)).2.2
     [] 0 1234 (PodWatcher.mk [] [] []) (by rfl)⟩

/-! ## C1 (corrected): the terminal `Applied` transition records once and
retains the entry as `finished` -/

/-- Counterexample to C1 as stated: in the scenario of
`test_handle_pod_event_applied_running_to_finished` the claim's "removes
the pod's entry from the index" is false of the program — after the
terminal transition the index still maps the pod, to `finished 1234 5678`
(`pod_watcher_test.rs:138`). -/
theorem applied_running_to_finished_counterexample :
    (handlePodEvent [] 0 1234
        (PodWatcher.mk [("test/test-pod", .running 1234)] [] [])
        (.applied testPodFinished)).map
        (fun stF => alistLookup stF.ownedPods "test/test-pod") =
      some (some (.finished 1234 5678)) ∧
    ¬ ((handlePodEvent [] 0 1234
        (PodWatcher.mk [("test/test-pod", .running 1234)] [] [])
        (.applied testPodFinished)).map
        (fun stF => alistLookup stF.ownedPods "test/test-pod") =
      some none) :=
  ⟨by decide, by decide⟩

/-- C1 (amended): for every pod whose index entry is
`running existing_start`, an `Applied` event observed as
`finished existing_start end_ts` (matching start timestamp) records
`(name, owner_chain, finished)` to the store exactly once — exactly one
record is appended — and retains the pod's index entry, updated to
`finished existing_start end_ts`; replaying the same `Applied` event on
the resulting state is a no-op: the state is returned unchanged, so
nothing further is recorded. -/
theorem applied_running_to_finished (api : ApiMap) (fuel : Nat)
    (clock : Int) (st : PodWatcher) (pod : Pod) (s e : Int)
    (chain : List OwnerReference) (cache' : OwnerCache) (k : Nat)
    (hidx : alistLookup st.ownedPods pod.namespacedName =
      some (.running s))
    (hobs : containerLifecycle pod = .finished s e)
    (hchain : computeOwnerChain api fuel st.ownersCache pod.toObj =
      some (chain, cache', k)) :
    ∃ st', handlePodEvent api fuel clock st (.applied pod) = some st' ∧
      st'.storeRecords = st.storeRecords ++
        [(pod.namespacedName, chain, .finished s e)] ∧
      alistLookup st'.ownedPods pod.namespacedName =
        some (.finished s e) ∧
      handlePodEvent api fuel clock st' (.applied pod) = some st' := by
  refine ⟨PodWatcher.mk
    (alistInsert st.ownedPods pod.namespacedName (.finished s e))
    cache'
    (st.storeRecords ++ [(pod.namespacedName, chain, .finished s e)]),
    ?_, rfl, alistLookup_insert _ _ _, ?_⟩
  · simp only [handlePodEvent, handlePodApplied, hobs, hidx, hchain]
    simp [shouldTrack]
  · simp only [handlePodEvent, handlePodApplied, hobs]
    rw [alistLookup_insert st.ownedPods pod.namespacedName
      (.finished s e)]
    simp [shouldTrack]

/-- Witness for C1: the scenario of
`test_handle_pod_event_applied_running_to_finished` — index entry
`running 1234`, observation `finished 1234 5678`, empty cache, no owner
references — records `("test/test-pod", [], finished 1234 5678)` exactly
once, retains the entry as `finished 1234 5678`, and a replay is a
no-op. -/
theorem applied_running_to_finished_witness :
    ∃ st', handlePodEvent [] 0 1234
        (PodWatcher.mk [("test/test-pod", .running 1234)] [] [])
        (.applied testPodFinished) = some st' ∧
      st'.storeRecords =
        ([] : List PodRecord) ++
          [(testPodFinished.namespacedName, [], .finished 1234 5678)] ∧
      alistLookup st'.ownedPods testPodFinished.namespacedName =
        some (.finished 1234 5678) ∧
      handlePodEvent [] 0 1234 st' (.applied testPodFinished) =
        some st' :=
  applied_running_to_finished [] 0 1234
    (PodWatcher.mk [("test/test-pod", .running 1234)] [] [])
    testPodFinished 1234 5678 [] [("test/test-pod", [])] 0
    (by decide) (by decide) (by decide)

/-! ## C3 (corrected): deletion of a running pod finalizes from the
deleted object's container data when present, else at the clock -/

/-- Counterexample to C3 as stated: in the scenario of
`test_handle_pod_event_deleted_finished[old_still_running]`
(`pod_watcher_test.rs:184-208`) — index entry `running 1234`, clock at
10000, deleted pod carrying a finished container `(1234, 5678)` — the
program records `finished 1234 5678` (end from the container data), not
`finished 1234 10000` (end from the clock), and the result differs from
deleting the metadata-only pod: "end_ts = clock, with the same result
whether or not the deleted pod carries container-status data" is false. -/
theorem deleted_running_finalized_counterexample :
    (handlePodEvent [] 0 10000
        (PodWatcher.mk [("test/test-pod", .running 1234)] [] [])
        (.deleted testPodFinished)).map PodWatcher.storeRecords =
      some [("test/test-pod", [], .finished 1234 5678)] ∧
    ¬ ((handlePodEvent [] 0 10000
        (PodWatcher.mk [("test/test-pod", .running 1234)] [] [])
        (.deleted testPodFinished)).map PodWatcher.storeRecords =
      some [("test/test-pod", [], .finished 1234 10000)]) ∧
    ¬ (handlePodEvent [] 0 10000
        (PodWatcher.mk [("test/test-pod", .running 1234)] [] [])
        (.deleted testPodFinished) =
      handlePodEvent [] 0 10000
        (PodWatcher.mk [("test/test-pod", .running 1234)] [] [])
        (.deleted testPodMeta)) :=
  ⟨by decide, by decide, by decide⟩

/-- C3 (amended): for every pod whose index entry is `running start_ts`, a
`Deleted` event removes the index entry and records exactly one finalized
record, whose value consults the deleted object's own observed lifecycle:
the observed `finished` interval verbatim when the deleted object carries
finished-container data, and `finished start_ts clock` — closing the
tracked start at the injected clock's current time — when it does not
(metadata-only and still-running deletes alike). -/
theorem deleted_running_finalized (api : ApiMap) (fuel : Nat) (clock : Int)
    (st : PodWatcher) (pod : Pod) (s : Int) (chain : List OwnerReference)
    (cache' : OwnerCache) (k : Nat)
    (hidx : alistLookup st.ownedPods pod.namespacedName =
      some (.running s))
    (hchain : computeOwnerChain api fuel st.ownersCache pod.toObj =
      some (chain, cache', k)) :
    (∃ st', handlePodEvent api fuel clock st (.deleted pod) = some st' ∧
      st'.storeRecords = st.storeRecords ++
        [(pod.namespacedName, chain,
          finalizeObserved (containerLifecycle pod) s clock)] ∧
      alistLookup st'.ownedPods pod.namespacedName = none) ∧
    (containerLifecycle pod = .empty →
      finalizeObserved (containerLifecycle pod) s clock =
        .finished s clock) ∧
    (∀ a : Int, containerLifecycle pod = .running a →
      finalizeObserved (containerLifecycle pod) s clock =
        .finished s clock) ∧
    (∀ a b : Int, containerLifecycle pod = .finished a b →
      finalizeObserved (containerLifecycle pod) s clock =
        .finished a b) := by
  refine ⟨?_, ?_, ?_, ?_⟩
  · refine ⟨PodWatcher.mk
      (alistErase st.ownedPods pod.namespacedName)
      cache'
      (st.storeRecords ++ [(pod.namespacedName, chain,
        finalizeObserved (containerLifecycle pod) s clock)]),
      ?_, rfl, alistLookup_erase _ _⟩
    simp only [handlePodEvent, handlePodDeleted, hidx, hchain]
  · intro h
    rw [h]
    rfl
  · intro a h
    rw [h]
    rfl
  · intro a b h
    rw [h]
    rfl

/-- Witness for C3: the scenario of
`test_handle_pod_event_deleted_no_container_data` — index entry
`running 1234`, clock at 5678, a metadata-only deleted pod — records
`("test/test-pod", [], finished 1234 5678)` (end from the clock: no
container data) and removes the entry. -/
theorem deleted_running_finalized_witness :
    (∃ st', handlePodEvent [] 0 5678
        (PodWatcher.mk [("test/test-pod", .running 1234)] [] [])
        (.deleted testPodMeta) = some st' ∧
      st'.storeRecords =
        ([] : List PodRecord) ++
          [(testPodMeta.namespacedName, [],
            finalizeObserved (containerLifecycle testPodMeta) 1234
              5678)] ∧
      alistLookup st'.ownedPods testPodMeta.namespacedName = none) ∧
    finalizeObserved (containerLifecycle testPodMeta) 1234 5678 =
      .finished 1234 5678 :=
  ⟨(deleted_running_finalized [] 0 5678
      (PodWatcher.mk [("test/test-pod", .running 1234)] [] [])
      testPodMeta 1234 [] [("test/test-pod", [])] 0
      (by decide) (by decide)).1,
   (deleted_running_finalized [] 0 5678
      (PodWatcher.mk [("test/test-pod", .running 1234)] [] [])
      testPodMeta 1234 [] [("test/test-pod", [])] 0
      (by decide) (by decide)).2.1 (by decide)⟩

/-! ## C2: `Restarted` resynchronization -/

/-- `pod1` of `test_handle_pod_event_restarted`: finished at (1234, 5678). -/
def restartPod1 : Pod :=
  { ns := "test", name := "pod1", ownerRefs := [],
    containerStatuses := some [.terminated 1234 5678] }

/-- `pod2` of `test_handle_pod_event_restarted`: still running since 1234. -/
def restartPod2 : Pod :=
  { ns := "test", name := "pod2", ownerRefs := [],
    containerStatuses := some [.running 1234] }

/-- The watcher state of `test_handle_pod_event_restarted`: pods 1-3 all
tracked as `running 1234`, their owner chains cached as empty, nothing yet
recorded. -/
def restartSt : PodWatcher :=
  PodWatcher.mk
    [("test/pod1", .running 1234), ("test/pod2", .running 1234),
     ("test/pod3", .running 1234)]
    [("test/pod1", []), ("test/pod2", []), ("test/pod3", [])]
    []

/-- Counterexample to C2 as stated: the claim has every pod of the list
processed "under rule (1)" as stated in C1, whose removal clause is false
of the program — in the concrete scenario of
`test_handle_pod_event_restarted` the resync leaves `pod1` in the index,
mapped to `finished 1234 5678` (`pod_watcher_test.rs:311`), not removed. -/
theorem restarted_resync_counterexample :
    (handlePodEvent [] 0 10000 restartSt
        (.restarted [restartPod1, restartPod2])).map
        (fun stF => alistLookup stF.ownedPods "test/pod1") =
      some (some (.finished 1234 5678)) ∧
    ¬ ((handlePodEvent [] 0 10000 restartSt
        (.restarted [restartPod1, restartPod2])).map
        (fun stF => alistLookup stF.ownedPods "test/pod1") = some none) :=
  ⟨by decide, by decide⟩

/-- C2 (amended): a `Restarted(list)` event (i) keeps the index entries
named in the list, sets the rest aside as leftovers, processes every pod
of the list in order as an `Applied` event under the (amended) rule (1),
and then finalizes each leftover in index order; (ii) a leftover
`running s` entry with a cached owner chain is finalized exactly as a
podless delete — `finished s clock` recorded with the cached chain, the
index left untouched by the leftover step (its entry is already gone);
(iii) a listed pod still running at its tracked start timestamp is a
no-op: entry left in the index, nothing written to the store; (iv) at the
resync split, a name in the list keeps its index binding and a name not
in the list loses it; and (v) on the concrete three-pod scenario of
`test_handle_pod_event_restarted` exactly `pod1 → finished 1234 5678` and
`pod3 → finished 1234 10000` are recorded, `pod1` stays in the index as
`finished 1234 5678`, `pod2` stays as `running 1234`, and `pod3` is
removed. -/
theorem restarted_resync :
    (∀ (api : ApiMap) (fuel : Nat) (clock : Int) (st : PodWatcher)
      (pods : List Pod),
      handlePodEvent api fuel clock st (.restarted pods) =
        match pods.foldlM (fun acc p => handlePodApplied api fuel acc p)
            (PodWatcher.mk
              (st.ownedPods.filter (fun e =>
                (pods.map Pod.namespacedName).contains e.1))
              st.ownersCache st.storeRecords) with
        | none => none
        | some st1 =>
            (st.ownedPods.filter (fun e =>
              !((pods.map Pod.namespacedName).contains e.1))).foldlM
              (fun acc e => finalizeLeftover clock acc e) st1) ∧
    (∀ (clock : Int) (st : PodWatcher) (n : String) (s : Int)
      (chain : List OwnerReference),
      alistLookup st.ownersCache n = some chain →
      finalizeLeftover clock st (n, .running s) =
        some { st with storeRecords := st.storeRecords ++
          [(n, chain, PodLifecycleData.finished s clock)] }) ∧
    (∀ (api : ApiMap) (fuel : Nat) (st : PodWatcher) (pod : Pod)
      (s : Int), containerLifecycle pod = .running s →
      alistLookup st.ownedPods pod.namespacedName = some (.running s) →
      handlePodApplied api fuel st pod = some st) ∧
    (∀ (names : List String) (l : List (String × PodLifecycleData))
      (n : String),
      (n ∈ names →
        alistLookup (l.filter (fun e => names.contains e.1)) n =
          alistLookup l n) ∧
      (n ∉ names →
        alistLookup (l.filter (fun e => names.contains e.1)) n = none)) ∧
    ((handlePodEvent [] 0 10000 restartSt
        (.restarted [restartPod1, restartPod2])).map
        (fun stF => alistLookup stF.ownedPods "test/pod1") =
       some (some (.finished 1234 5678)) ∧
     (handlePodEvent [] 0 10000 restartSt
        (.restarted [restartPod1, restartPod2])).map
        (fun stF => alistLookup stF.ownedPods "test/pod2") =
       some (some (.running 1234)) ∧
     (handlePodEvent [] 0 10000 restartSt
        (.restarted [restartPod1, restartPod2])).map
        (fun stF => alistLookup stF.ownedPods "test/pod3") = some none ∧
     (handlePodEvent [] 0 10000 restartSt
        (.restarted [restartPod1, restartPod2])).map
        PodWatcher.storeRecords =
       some [("test/pod1", [], .finished 1234 5678),
             ("test/pod3", [], .finished 1234 10000)]) := by
  refine ⟨fun api fuel clock st pods => rfl, ?_, ?_, ?_,
    by decide, by decide, by decide, by decide⟩
  · intro clock st n s chain h
    simp only [finalizeLeftover]
    rw [h]
  · intro api fuel st pod s hobs hidx
    simp only [handlePodApplied, hobs, hidx]
    simp [shouldTrack]
  · intro names l n
    exact ⟨alistLookup_filter_keep l names n,
      alistLookup_filter_drop l names n⟩

/-- Witness for C2: in the scenario of `test_handle_pod_event_restarted`,
the leftover `test/pod3` — tracked as `running 1234`, absent from the
resync list, its (empty) owner chain cached — is finalized by recording
`finished 1234 10000` with the cached chain. -/
theorem restarted_resync_witness :
    finalizeLeftover 10000 restartSt ("test/pod3", .running 1234) =
      some { restartSt with storeRecords := restartSt.storeRecords ++
        [("test/pod3", [], PodLifecycleData.finished 1234 10000)] } :=
  restarted_resync.2.1 10000 restartSt "test/pod3" 1234 [] (by decide)

/-! ## Export fixtures -/

/-- A tracked-object event sitting in the store at timestamp 5. -/
def demoObjEvent : ObjEvent :=
  { kind := "Deployment", ns := "test", name := "nginx", labels := [],
    snapshot := "\x7b\x7d", ts := 5 }

/-- A finalized pod interval owned (transitively) by a Deployment. -/
def demoPodInterval : PodIntervalEntry :=
  { ns := "test", name := "test-pod", labels := [],
    ownerChain := [rsRef, deplRef], startTs := 1234, endTs := 5678 }

/-- A DaemonSet owner reference. -/
def dsRef : OwnerReference :=
  { apiVersion := "apps/v1", kind := "DaemonSet", name := "test-ds",
    uid := "qwer" }

/-- A finalized pod interval owned by a DaemonSet. -/
def daemonPodInterval : PodIntervalEntry :=
  { ns := "test", name := "ds-pod", labels := [],
    ownerChain := [dsRef], startTs := 1234, endTs := 5678 }

/-- A store holding one object event and one pod interval. -/
def demoStore : TraceStore :=
  { events := [demoObjEvent], podIntervals := [demoPodInterval] }

/-- A store holding a Deployment-owned and a DaemonSet-owned pod
interval. -/
def demoStore2 : TraceStore :=
  { events := [], podIntervals := [demoPodInterval, daemonPodInterval] }

/-- Filters excluding the `kube-system` namespace, no label exclusions,
DaemonSet exclusion on. -/
def demoFilters : ExportFilters :=
  ExportFilters.new ["kube-system"] [] true

/-! ## C7: export is pure, deterministic, windowed and filtered -/

/-- C7: for every store, window and filters, `export` leaves the store
unchanged; a second call on the store left behind by the first yields
identical output; and no object event outside the window or matching an
exclusion filter, and no pod interval outside the window or matching an
exclusion filter (namespace, labels, or — when enabled — a DaemonSet owner),
appears in the output. -/
theorem export_pure_windowed_filtered :
    (∀ (st : TraceStore) (t0 t1 : Int) (f : ExportFilters),
      (exportTrace st t0 t1 f).2 = st) ∧
    (∀ (st : TraceStore) (t0 t1 : Int) (f : ExportFilters),
      (exportTrace ((exportTrace st t0 t1 f).2) t0 t1 f).1 =
        (exportTrace st t0 t1 f).1) ∧
    (∀ (st : TraceStore) (t0 t1 : Int) (f : ExportFilters) (e : ObjEvent),
      e ∈ (exportTrace st t0 t1 f).1.objEvents →
      (t0 ≤ e.ts ∧ e.ts ≤ t1) ∧
      f.excludedNamespaces.contains e.ns = false ∧
      labelsMatch f.excludedLabels e.labels = false) ∧
    (∀ (st : TraceStore) (t0 t1 : Int) (f : ExportFilters)
      (p : PodIntervalEntry),
      p ∈ (exportTrace st t0 t1 f).1.podIntervals →
      (p.startTs ≤ t1 ∧ t0 ≤ p.endTs) ∧
      f.excludedNamespaces.contains p.ns = false ∧
      labelsMatch f.excludedLabels p.labels = false ∧
      (f.excludeDaemonsets = true →
        chainHasDaemonSet p.ownerChain = false)) := by
  refine ⟨fun st t0 t1 f => rfl, fun st t0 t1 f => rfl, ?_, ?_⟩
  · intro st t0 t1 f e he
    simp only [exportTrace, List.mem_filter] at he
    have hinc := he.2
    simp only [includeEvent, Bool.and_eq_true, Bool.not_eq_true',
      decide_eq_true_eq] at hinc
    exact ⟨⟨hinc.1.1.1, hinc.1.1.2⟩, hinc.1.2, hinc.2⟩
  · intro st t0 t1 f p hp
    simp only [exportTrace, List.mem_filter] at hp
    have hinc := hp.2
    simp only [includePod, Bool.and_eq_true, Bool.not_eq_true',
      decide_eq_true_eq] at hinc
    refine ⟨⟨hinc.1.1.1.1, hinc.1.1.1.2⟩, hinc.1.1.2, hinc.1.2, ?_⟩
    intro hdm
    cases hcd : chainHasDaemonSet p.ownerChain
    · rfl
    · have := hinc.2
      rw [hdm, hcd] at this
      simp at this

/-- Witness for C7: on a concrete one-event store with the demo filters
and window `[0, 10000]`, the exported event lies in the window and matches
no exclusion. -/
theorem export_pure_windowed_filtered_witness :
    ((0 : Int) ≤ demoObjEvent.ts ∧ demoObjEvent.ts ≤ 10000) ∧
    demoFilters.excludedNamespaces.contains demoObjEvent.ns = false ∧
    labelsMatch demoFilters.excludedLabels demoObjEvent.labels = false :=
  export_pure_windowed_filtered.2.2.1 demoStore 0 10000 demoFilters
    demoObjEvent (by decide)

/-! ## C9: snapshot filters always drop DaemonSet-owned pods -/

/-- C9: the snapshot command always constructs its export filters with an
empty excluded-labels list and `exclude_daemonsets = true`, for every
command-line input; consequently no pod interval whose owner chain
contains a DaemonSet ever appears in a snapshot export. -/
theorem snapshot_filters_exclude_daemonsets :
    (∀ exns : List String,
      snapshotFilters exns = ExportFilters.new exns [] true ∧
      (snapshotFilters exns).excludedLabels = [] ∧
      (snapshotFilters exns).excludeDaemonsets = true) ∧
    (∀ (store : TraceStore) (now : Int) (exns : List String)
      (p : PodIntervalEntry),
      p ∈ (snapshotExport store now exns).podIntervals →
      chainHasDaemonSet p.ownerChain = false) ∧
    (∀ (store : TraceStore) (now : Int) (exns : List String)
      (p : PodIntervalEntry),
      chainHasDaemonSet p.ownerChain = true →
      p ∉ (snapshotExport store now exns).podIntervals) := by
  have hmem : ∀ (store : TraceStore) (now : Int) (exns : List String)
      (p : PodIntervalEntry),
      p ∈ (snapshotExport store now exns).podIntervals →
      chainHasDaemonSet p.ownerChain = false := by
    intro store now exns p hp
    simp only [snapshotExport, exportTrace, List.mem_filter] at hp
    have hinc := hp.2
    simp only [includePod, snapshotFilters, ExportFilters.new,
      Bool.and_eq_true, Bool.not_eq_true'] at hinc
    simpa using hinc.2
  refine ⟨fun exns => ⟨rfl, rfl, rfl⟩, hmem, ?_⟩
  intro store now exns p hcd hp
  rw [hmem store now exns p hp] at hcd
  cases hcd

/-- Witness for C9: exporting the two-interval store at clock 2000 keeps
the Deployment-owned pod (whose chain the theorem certifies
DaemonSet-free) and drops the DaemonSet-owned pod. -/
theorem snapshot_filters_exclude_daemonsets_witness :
    chainHasDaemonSet demoPodInterval.ownerChain = false ∧
    daemonPodInterval ∉
      (snapshotExport demoStore2 2000 ["kube-system"]).podIntervals :=
  ⟨snapshot_filters_exclude_daemonsets.2.1 demoStore2 2000
      ["kube-system"] demoPodInterval (by decide),
   snapshot_filters_exclude_daemonsets.2.2 demoStore2 2000
      ["kube-system"] daemonPodInterval (by decide)⟩

/-! ## C10: the snapshot export window is `[now, now + 1]` -/

/-- C10: the snapshot command's export window starts at the wall-clock
timestamp `now` taken at export time and ends at `now + 1` — exactly one
second wide — and every entry of a snapshot export overlaps that window. -/
theorem snapshot_window_one_second :
    (∀ now : Int, snapshotWindow now = (now, now + 1) ∧
      (snapshotWindow now).2 - (snapshotWindow now).1 = 1) ∧
    (∀ (store : TraceStore) (now : Int) (exns : List String),
      snapshotExport store now exns =
        (exportTrace store now (now + 1) (snapshotFilters exns)).1) ∧
    (∀ (store : TraceStore) (now : Int) (exns : List String)
      (e : ObjEvent), e ∈ (snapshotExport store now exns).objEvents →
      now ≤ e.ts ∧ e.ts ≤ now + 1) ∧
    (∀ (store : TraceStore) (now : Int) (exns : List String)
      (p : PodIntervalEntry),
      p ∈ (snapshotExport store now exns).podIntervals →
      p.startTs ≤ now + 1 ∧ now ≤ p.endTs) := by
  refine ⟨fun now => ⟨rfl, by simp [snapshotWindow]⟩,
    fun store now exns => rfl, ?_, ?_⟩
  · intro store now exns e he
    simp only [snapshotExport, exportTrace, List.mem_filter] at he
    have hinc := he.2
    simp only [includeEvent, Bool.and_eq_true, Bool.not_eq_true',
      decide_eq_true_eq] at hinc
    exact ⟨hinc.1.1.1, hinc.1.1.2⟩
  · intro store now exns p hp
    simp only [snapshotExport, exportTrace, List.mem_filter] at hp
    have hinc := hp.2
    simp only [includePod, Bool.and_eq_true, Bool.not_eq_true',
      decide_eq_true_eq] at hinc
    exact ⟨hinc.1.1.1.1, hinc.1.1.1.2⟩

/-- Witness for C10: with the wall clock at 5, the demo store's event at
timestamp 5 is exported and lies inside `[5, 6]`. -/
theorem snapshot_window_one_second_witness :
    (5 : Int) ≤ demoObjEvent.ts ∧ demoObjEvent.ts ≤ 5 + 1 :=
  snapshot_window_one_second.2.2.1 demoStore 5 [] demoObjEvent (by decide)

end Simkube
